import Mathlib

/-!
Verification development for the hotel URL identity-resolution engine
(`main.py` / `match_EXCEL.py`).  The engine reconciles crawled hotel records
against a master registry: text normalization, geographic candidate
filtering, fuzzy scoring with a fixed threshold, tie-break by first
occurrence, and idempotent persistence keyed on (hotel_code, url).

The definitions below are a shallow embedding of the Python source.  Where
the two scripts diverge, the embedding follows `match_EXCEL.py`, the refined
engine that the specification describes; divergences of `main.py` are noted
in comments.  Python strings are modelled as Lean `String` restricted to
their ASCII behaviour; Python `None` is `Option.none`; the library fuzzy
scorer (`rapidfuzz.fuzz.token_set_ratio`, a library collaborator, not code
of this repository) is a parameter `score : String → String → ℚ` since
every claim treats its values abstractly.
-/

namespace HotelMap

/-! ### Python string primitives (ASCII model) -/

/-- Python whitespace class for `str.strip` and the regex class `\s`:
space, tab, newline, carriage return, vertical tab, form feed. -/
def isPySpace (c : Char) : Bool :=
  c.toNat = 32 ∨ c.toNat = 9 ∨ c.toNat = 10 ∨ c.toNat = 13 ∨ c.toNat = 11 ∨ c.toNat = 12

/-- ASCII lower-casing of one character, the behaviour of Python
`str.lower` on the ASCII range. -/
def pyLowerChar (c : Char) : Char :=
  if 65 ≤ c.toNat ∧ c.toNat ≤ 90 then Char.ofNat (c.toNat + 32) else c

/-- ASCII upper-casing of one character, the behaviour of Python
`str.upper` on the ASCII range. -/
def pyUpperChar (c : Char) : Char :=
  if 97 ≤ c.toNat ∧ c.toNat ≤ 122 then Char.ofNat (c.toNat - 32) else c

/-- Python `str.strip()` on a character list: drop leading and trailing
whitespace. -/
def pyStripList (l : List Char) : List Char :=
  ((l.dropWhile isPySpace).reverse.dropWhile isPySpace).reverse

/-- Python `str.strip()`. -/
def pyStrip (s : String) : String := String.mk (pyStripList s.data)

/-- Python `str.lower()`. -/
def pyLower (s : String) : String := String.mk (s.data.map pyLowerChar)

/-- Python `str.upper()`. -/
def pyUpper (s : String) : String := String.mk (s.data.map pyUpperChar)

/-- ASCII alphabetic test, the regex class `[A-Za-z]` and the ASCII case of
Python `str.isalpha`. -/
def isAsciiAlpha (c : Char) : Bool :=
  (65 ≤ c.toNat ∧ c.toNat ≤ 90) ∨ (97 ≤ c.toNat ∧ c.toNat ≤ 122)

/-- ASCII word character, the regex class `\w` used by the word boundary
`\b`: letters, digits, underscore. -/
def isWordChar (c : Char) : Bool :=
  isAsciiAlpha c ∨ (48 ≤ c.toNat ∧ c.toNat ≤ 57) ∨ c.toNat = 95

/-- Python `str.split(",")`: cut at every comma, keeping empty pieces. -/
def splitOnComma : List Char → List (List Char)
  | [] => [[]]
  | c :: rest =>
    let r := splitOnComma rest
    if c = ',' then [] :: r
    else
      match r with
      | [] => [[c]]
      | piece :: t => (c :: piece) :: t

/-! ### Normalizer (`match_EXCEL.py` lines 97-161, `main.py` lines 56-82) -/

/-- `normalize_text` (`match_EXCEL.py` 97-105): `None` and the string
`"nan"` (case-insensitively, which is how a pandas missing value prints)
become the empty key; otherwise lower-case, delete every character outside
`[a-z0-9\s]`, and strip. -/
def normalize_text : Option String → String
  | none => ""
  | some v =>
    if pyLower v = "nan" then ""
    else
      String.mk (pyStripList ((v.data.map pyLowerChar).filter
        (fun c => (97 ≤ c.toNat ∧ c.toNat ≤ 122) ∨ (48 ≤ c.toNat ∧ c.toNat ≤ 57) ∨ isPySpace c)))

/-- `STATE_CODE_MAP` (`match_EXCEL.py` 37-56): the fixed table of 50 US
state names to 2-letter codes. -/
def STATE_CODE_MAP : List (String × String) :=
  [("alabama", "AL"), ("alaska", "AK"), ("arizona", "AZ"), ("arkansas", "AR"),
   ("california", "CA"), ("colorado", "CO"), ("connecticut", "CT"),
   ("delaware", "DE"), ("florida", "FL"), ("georgia", "GA"),
   ("hawaii", "HI"), ("idaho", "ID"), ("illinois", "IL"),
   ("indiana", "IN"), ("iowa", "IA"), ("kansas", "KS"),
   ("kentucky", "KY"), ("louisiana", "LA"), ("maine", "ME"),
   ("maryland", "MD"), ("massachusetts", "MA"), ("michigan", "MI"),
   ("minnesota", "MN"), ("mississippi", "MS"), ("missouri", "MO"),
   ("montana", "MT"), ("nebraska", "NE"), ("nevada", "NV"),
   ("new hampshire", "NH"), ("new jersey", "NJ"),
   ("new mexico", "NM"), ("new york", "NY"),
   ("north carolina", "NC"), ("north dakota", "ND"),
   ("ohio", "OH"), ("oklahoma", "OK"), ("oregon", "OR"),
   ("pennsylvania", "PA"), ("rhode island", "RI"),
   ("south carolina", "SC"), ("south dakota", "SD"),
   ("tennessee", "TN"), ("texas", "TX"), ("utah", "UT"),
   ("vermont", "VT"), ("virginia", "VA"), ("washington", "WA"),
   ("west virginia", "WV"), ("wisconsin", "WI"), ("wyoming", "WY")]

/-- `state_to_code` (`match_EXCEL.py` 107-113): falsy input gives `None`;
a stripped 2-letter alphabetic token is upper-cased; anything else is
looked up lower-cased in `STATE_CODE_MAP`, `None` when unmapped.
(`main.py` 63-69 is older: it skips the alphabetic check.) -/
def state_to_code : Option String → Option String
  | none => none
  | some state =>
    if state = "" then none
    else
      let s := pyStrip state
      if s.length = 2 ∧ s.data.all isAsciiAlpha then some (pyUpper s)
      else List.lookup (pyLower s) STATE_CODE_MAP

/-- `country_to_code` (`match_EXCEL.py` 115-125): falsy input gives `None`;
strip, and `None` again if nothing remains; upper-case; the variants
`USA, UNITED STATES, US, U.S., U.S.A.` collapse to `US`; anything else is
returned upper-cased.  (`main.py` 71-75 is older: it only collapses
`USA` and `UNITED STATES`.) -/
def country_to_code : Option String → Option String
  | none => none
  | some country =>
    if country = "" then none
    else
      let c := pyStrip country
      if c = "" then none
      else
        let cUp := pyUpper c
        if cUp = "USA" ∨ cUp = "UNITED STATES" ∨ cUp = "US" ∨ cUp = "U.S." ∨ cUp = "U.S.A."
        then some "US"
        else some cUp

/-- The regex probe `re.match(r"([A-Za-z]{2})\b", s)` from
`parse_address_components`: the first two characters are ASCII letters and
are followed by a word boundary (end of string or a non-word character);
on success the captured group is those two characters. -/
def twoLetterCodeAux : List Char → Option String
  | c0 :: c1 :: rest =>
    if isAsciiAlpha c0 && isAsciiAlpha c1 &&
       (match rest with | [] => true | c2 :: _ => !(isWordChar c2))
    then some (String.mk [c0, c1])
    else none
  | _ => none

def twoLetterCode (s : String) : Option String := twoLetterCodeAux s.data

/-- The segment list of `parse_address_components`
(`match_EXCEL.py` line 136): split the address on commas, strip each
segment, drop the empty ones. -/
def addressParts (address : String) : List String :=
  (((splitOnComma address.data).map (fun l => String.mk (pyStripList l))).filter
    (fun p => p ≠ ""))

/-- Element `parts[-k]` of a Python list (1-based from the end), empty
string when out of range. -/
def nthFromEnd (l : List String) (k : Nat) : String :=
  l.reverse.getD (k - 1) ""

/-- `parse_address_components` (`match_EXCEL.py` 127-161): empty address
gives three empty strings; otherwise the country is the last non-empty
segment; with at least three segments, if the second-to-last starts with
a two-letter state code that code is the state and the third-to-last
segment is the city, otherwise the second-to-last segment is the city;
with two segments the first is the city.  (`main.py` 77-82 is a divergent
older parser, flagged as such by the specification.) -/
def parse_address_components (address : String) : String × String × String :=
  if address = "" then ("", "", "")
  else
    let parts := addressParts address
    let country := if 1 ≤ parts.length then nthFromEnd parts 1 else ""
    let cs : String × String :=
      if 3 ≤ parts.length then
        match twoLetterCode (nthFromEnd parts 2) with
        | some st => (nthFromEnd parts 3, st)
        | none => (nthFromEnd parts 2, "")
      else ("", "")
    let city := if cs.1 = "" ∧ 2 ≤ parts.length then nthFromEnd parts 2 else cs.1
    (pyStrip city, pyStrip cs.2, pyStrip country)

/-! ### Data model -/

/-- One row of the master registry after `load_csl_hotels`
(`match_EXCEL.py` 195-213): the source columns used by matching plus the
derived normalized keys computed once at load. -/
structure MasterRow where
  globalPropertyId : Nat
  globalPropertyName : String
  cityNorm : String
  hotelNorm : String
  stateCode : String
  countryCode : String
  latitude : ℚ
  longitude : ℚ
deriving DecidableEq, Repr

/-- One scraped record as built by `scrape_single_hotel`
(`match_EXCEL.py` 278-289). -/
structure ScrapedItem where
  scrapedName : String
  hotelNorm : String
  address : String
  city : String
  cityNorm : String
  state : String
  stateCode : Option String
  country : String
  countryCode : Option String
  url : String
deriving DecidableEq, Repr

/-- The outcome dictionary appended by `match_hotels`
(`match_EXCEL.py` 327-357). -/
structure MatchOutcome where
  hotelCode : Option Nat
  scrapedHotelName : String
  globalPropertyName : Option String
  city : String
  state : String
  stateCode : Option String
  country : String
  countryCode : Option String
  url : String
  address : String
  latitude : Option ℚ
  longitude : Option ℚ
  matchConfidence : ℚ
deriving DecidableEq, Repr

/-- `FUZZY_THRESHOLD = 85` (`match_EXCEL.py` line 34). -/
def FUZZY_THRESHOLD : ℚ := 85

/-- `scrape_single_hotel` without the browser I/O: how a scraped record is
assembled from the raw name, raw address and URL (`match_EXCEL.py`
261-289, with `normalize_state`/`normalize_country` delegating to
`state_to_code`/`country_to_code`). -/
def build_scraped_item (name address url : String) : ScrapedItem :=
  let parsed := parse_address_components address
  { scrapedName := name
    hotelNorm := normalize_text (some name)
    address := address
    city := parsed.1
    cityNorm := normalize_text (some parsed.1)
    state := parsed.2.1
    stateCode := state_to_code (some parsed.2.1)
    country := parsed.2.2
    countryCode := country_to_code (some parsed.2.2)
    url := url }

/-! ### Candidate Filter and Match Decision
(`match_EXCEL.py` 299-359, `main.py` 208-266) -/

/-- Python truthiness of the optional string fields
(`if item["state_code"]:`): `None` and the empty string are falsy. -/
def pyTruthyOpt : Option String → Bool
  | none => false
  | some s => s ≠ ""

/-- The record-level guard of `match_hotels`
(`if not item["city_norm"] or not item["country_code"]: continue`):
a record is resolvable when its normalized city key and canonicalized
country code are both truthy. -/
def resolvable (item : ScrapedItem) : Bool :=
  item.cityNorm ≠ "" && pyTruthyOpt item.countryCode

/-- The candidate filter of `match_hotels` (`match_EXCEL.py` 309-315):
exact equality on normalized city and country, and on the state code when
the scraped record has a truthy one; registry order is preserved. -/
def candidatesFor (master : List MasterRow) (item : ScrapedItem) : List MasterRow :=
  let cands := master.filter
    (fun r => r.cityNorm = item.cityNorm ∧ item.countryCode = some r.countryCode)
  if pyTruthyOpt item.stateCode then
    cands.filter (fun r => item.stateCode = some r.stateCode)
  else cands

/-- The best-score loop of `match_hotels` (`match_EXCEL.py` 317-324):
starting from `best_score = 0, best_row = None`, a candidate replaces the
running best only when its score is strictly greater. -/
def best_fold (score : String → String → ℚ) (h : String) :
    List MasterRow → ℚ → Option MasterRow → ℚ × Option MasterRow
  | [], b, o => (b, o)
  | r :: rest, b, o =>
    if b < score h r.hotelNorm then best_fold score h rest (score h r.hotelNorm) (some r)
    else best_fold score h rest b o

/-- The matched outcome shape (`match_EXCEL.py` 327-341). -/
def mkMatched (item : ScrapedItem) (row : MasterRow) (conf : ℚ) : MatchOutcome :=
  { hotelCode := some row.globalPropertyId
    scrapedHotelName := item.scrapedName
    globalPropertyName := some row.globalPropertyName
    city := item.city
    state := item.state
    stateCode := item.stateCode
    country := item.country
    countryCode := item.countryCode
    url := item.url
    address := item.address
    latitude := some row.latitude
    longitude := some row.longitude
    matchConfidence := conf }

/-- The no-match outcome shape (`match_EXCEL.py` 343-357): identity fields
null, geography copied from the scraped record, confidence 0. -/
def mkNoMatch (item : ScrapedItem) : MatchOutcome :=
  { hotelCode := none
    scrapedHotelName := item.scrapedName
    globalPropertyName := none
    city := item.city
    state := item.state
    stateCode := item.stateCode
    country := item.country
    countryCode := item.countryCode
    url := item.url
    address := item.address
    latitude := none
    longitude := none
    matchConfidence := 0 }

/-- Match Decision for one resolvable record: filter, score, and apply
`if best_row is not None and best_score >= FUZZY_THRESHOLD`
(`match_EXCEL.py` 309-357). -/
def decide_one (score : String → String → ℚ) (master : List MasterRow)
    (item : ScrapedItem) : MatchOutcome :=
  let bs := best_fold score item.hotelNorm (candidatesFor master item) 0 none
  match bs.2 with
  | some row => if FUZZY_THRESHOLD ≤ bs.1 then mkMatched item row bs.1 else mkNoMatch item
  | none => mkNoMatch item

/-- `match_hotels` (`match_EXCEL.py` 299-359): skip `None` entries and
unresolvable records, emit exactly one outcome for each remaining record. -/
def match_hotels (score : String → String → ℚ)
    (scraped_hotels : List (Option ScrapedItem)) (master : List MasterRow) :
    List MatchOutcome :=
  scraped_hotels.filterMap
    (fun oitem =>
      match oitem with
      | none => none
      | some item =>
        if resolvable item then some (decide_one score master item) else none)

/-! ### Persistence (`match_EXCEL.py` 365-408) -/

/-- Conflict test of the arbiter `(hotel_code, url)` behind
`ON CONFLICT (hotel_code, url) DO NOTHING`: under SQL unique-constraint
semantics two rows conflict only when both indexed values are non-null and
equal; a NULL `hotel_code` never conflicts with anything, not even another
NULL. -/
def keyConflict (r1 r2 : MatchOutcome) : Bool :=
  match r1.hotelCode, r2.hotelCode with
  | some a, some b => a = b ∧ r1.url = r2.url
  | _, _ => false

/-- One `INSERT ... ON CONFLICT (hotel_code, url) DO NOTHING`
(`match_EXCEL.py` 372-403), modelled against a table that does carry the
unique index the statement presumes: the row is appended unless it
conflicts with a stored row. -/
def insertOutcome (table : List MatchOutcome) (r : MatchOutcome) : List MatchOutcome :=
  if table.any (fun x => keyConflict x r) then table else table ++ [r]

/-- `save_to_db` (`match_EXCEL.py` 365-408): execute the insert for every
record of the batch.  (`main.py` 271-274 instead uses a plain
`to_sql(..., if_exists="append")` with no conflict handling at all.) -/
def save_to_db (table : List MatchOutcome) (records : List MatchOutcome) :
    List MatchOutcome :=
  records.foldl insertOutcome table

/-! ### Resolution Coordinator (`match_EXCEL.py` 230-251 and 413-432) -/

/-- A location entry from `hilton_locations.json`. -/
structure Location where
  url : String
deriving DecidableEq, Repr

/-- `scrape_hotels_from_location` (`match_EXCEL.py` 230-251) with the
browser abstracted into `crawl`: per-hotel failures already surface as
`none` entries inside a successful crawl (`retry_action` returning
`None`), which the `if hotel_data:` guard drops; a crawler exception for
the whole location is caught by the try block, logged, and yields the
results accumulated so far, which is the empty list because every
statement after link collection is exception-free. -/
def scrape_hotels_from_location
    (crawl : Location → Except String (List (Option ScrapedItem)))
    (loc : Location) : List ScrapedItem :=
  match crawl loc with
  | Except.ok hotelResults => hotelResults.filterMap id
  | Except.error _ => []

/-- `main_scrape_and_map` (`match_EXCEL.py` 413-432) restricted to the
outcome set it accumulates: scrape each location, match, and extend
`all_results`; persistence and the JSON snapshot consume the same list. -/
def main_scrape_and_map
    (crawl : Location → Except String (List (Option ScrapedItem)))
    (score : String → String → ℚ) (master : List MasterRow)
    (locations : List Location) : List MatchOutcome :=
  locations.foldl
    (fun acc loc =>
      acc ++ match_hotels score ((scrape_hotels_from_location crawl loc).map some) master)
    []

/-! ### Spec-side definitions used by refinement claims -/

/-- The specification wording of `canonicalizeCountry` (spec 4.1):
upper-case and trim; map the variant spellings to `US`; any other
non-empty value is returned upper-cased unchanged; empty input gives
null.  Compared against `country_to_code` below. -/
def canonicalize_country_spec : Option String → Option String
  | none => none
  | some s =>
    let c := pyStrip (pyUpper s)
    if c = "" then none
    else if c = "USA" ∨ c = "UNITED STATES" ∨ c = "US" ∨ c = "U.S." ∨ c = "U.S.A."
    then some "US"
    else some c

/-- The specification wording of `parseAddressComponents` (spec 4.1) on
the non-empty trimmed segments, amended in the one-segment case where the
code keeps the segment as the country: country is the last segment; with
at least three segments the second-to-last is probed for a leading
two-letter state code; with two segments the first is the city.
Compared against `parse_address_components` below. -/
def parse_address_components_spec (segments : List String) : String × String × String :=
  match segments.reverse with
  | [] => ("", "", "")
  | [c] => ("", "", c)
  | [c, a] => (a, "", c)
  | c :: b :: a :: _ =>
    match twoLetterCode b with
    | some st => (a, st, c)
    | none => (b, "", c)

/-! ### Derived definitions used in the analysis -/

/-- The maximum of `b` and the scores of `rows`, the value the loop of
`match_hotels` tracks in `best_score`. -/
def maxScoreFrom (score : String → String → ℚ) (h : String) (b : ℚ)
    (rows : List MasterRow) : ℚ :=
  rows.foldl (fun acc r => max acc (score h r.hotelNorm)) b

/-- A score function that gives every pair 0, as the real scorer does for
fully dissimilar names. -/
def zeroScore : String → String → ℚ := fun _ _ => 0

/-! ### Sample data for concrete witnesses -/

/-- A concrete master registry row (the Scenario A row of the spec). -/
def sampleMaster : MasterRow :=
  { globalPropertyId := 7001
    globalPropertyName := "Hilton Seattle Downtown"
    cityNorm := "seattle"
    hotelNorm := "hilton seattle downtown"
    stateCode := "WA"
    countryCode := "US"
    latitude := 47
    longitude := -122 }

/-- A concrete scraped record built the way `scrape_single_hotel` builds
one (the Scenario A record of the spec). -/
def sampleItem : ScrapedItem :=
  build_scraped_item "Hilton Downtown" "Seattle, WA 98101, United States"
    "https://www.hilton.com/en/hotels/sea-dt/"

/-- A concrete score function standing in for the library fuzzy scorer. -/
def sampleScore : String → String → ℚ :=
  fun a b => if a = "hilton downtown" ∧ b = "hilton seattle downtown" then 90 else 0

/-- A scraped record whose parsed city is empty, hence unresolvable. -/
def sampleItemNoCity : ScrapedItem :=
  build_scraped_item "Lonely Hotel" "France" "https://www.hilton.com/en/hotels/fr-x/"

/-- A concrete no-match outcome: its `hotel_code` is NULL. -/
def sampleNoMatch : MatchOutcome :=
  mkNoMatch (build_scraped_item "Obscure Hotel" "Paris, France"
    "https://www.hilton.com/en/hotels/par-ob/")

/-- A concrete matched outcome with a non-null `hotel_code`. -/
def sampleMatched : MatchOutcome := mkMatched sampleItem sampleMaster 90

/-- Concrete location entries. -/
def sampleLocGood1 : Location := { url := "https://www.hilton.com/en/locations/usa/" }

def sampleLocBad : Location := { url := "https://www.hilton.com/en/locations/bad/" }

def sampleLocGood2 : Location := { url := "https://www.hilton.com/en/locations/france/" }

/-- A concrete crawler that raises on one location and succeeds on the
others. -/
def sampleCrawl : Location → Except String (List (Option ScrapedItem)) :=
  fun loc =>
    if loc.url = "https://www.hilton.com/en/locations/bad/" then Except.error "timeout"
    else Except.ok [some sampleItem]

/-! ### Helper lemmas about the Python string model -/

theorem toNat_ofNat_valid (n : Nat) (h : n.isValidChar) : (Char.ofNat n).toNat = n := by
  rw [Char.ofNat, dif_pos h]; rfl

theorem isPySpace_pyUpperChar (c : Char) : isPySpace (pyUpperChar c) = isPySpace c := by
  unfold pyUpperChar
  by_cases h : 97 ≤ c.toNat ∧ c.toNat ≤ 122
  · rw [if_pos h]
    have hv : (c.toNat - 32).isValidChar := by
      constructor
      omega
    have he := toNat_ofNat_valid (c.toNat - 32) hv
    simp only [isPySpace, he]
    have h1 : ¬ (c.toNat = 32 ∨ c.toNat = 9 ∨ c.toNat = 10 ∨ c.toNat = 13 ∨
        c.toNat = 11 ∨ c.toNat = 12) := by omega
    have h2 : ¬ (c.toNat - 32 = 32 ∨ c.toNat - 32 = 9 ∨ c.toNat - 32 = 10 ∨
        c.toNat - 32 = 13 ∨ c.toNat - 32 = 11 ∨ c.toNat - 32 = 12) := by omega
    simp [h1, h2]
  · rw [if_neg h]

theorem isAsciiAlpha_not_pySpace {c : Char} (h : isAsciiAlpha c = true) :
    isPySpace c = false := by
  simp only [isAsciiAlpha, decide_eq_true_eq] at h
  simp only [isPySpace, decide_eq_false_iff_not]
  omega

theorem pyStripList_eq_rdropWhile (l : List Char) :
    pyStripList l = List.rdropWhile isPySpace (l.dropWhile isPySpace) := rfl

theorem rdropWhile_cons_shape (p : Char → Bool) (c : Char) (t : List Char) :
    List.rdropWhile p (c :: t) = [] ∨
      ∃ t2, List.rdropWhile p (c :: t) = c :: t2 := by
  unfold List.rdropWhile
  rw [List.reverse_cons, List.dropWhile_append]
  by_cases he : (t.reverse.dropWhile p).isEmpty
  · rw [if_pos he]
    by_cases hc : p c
    · left
      simp [List.dropWhile_cons, hc]
    · right
      refine ⟨[], ?_⟩
      simp [List.dropWhile_cons, hc]
  · rw [if_neg he]
    right
    exact ⟨(t.reverse.dropWhile p).reverse, by simp⟩

theorem dropWhile_pyStripList (l : List Char) :
    (pyStripList l).dropWhile isPySpace = pyStripList l := by
  rw [pyStripList_eq_rdropWhile]
  rcases hd : l.dropWhile isPySpace with _ | ⟨c, t⟩
  · simp
  · have hc : isPySpace c = false := by
      have hq : (l.dropWhile isPySpace).head? = some c := by rw [hd]; rfl
      have hm := List.head?_dropWhile_not isPySpace l
      rw [hq] at hm
      exact hm
    rcases rdropWhile_cons_shape isPySpace c t with h | ⟨t2, h⟩
    · rw [h]; rfl
    · rw [h, List.dropWhile_cons_of_neg (by simp [hc])]

theorem pyStripList_idem (l : List Char) :
    pyStripList (pyStripList l) = pyStripList l := by
  rw [pyStripList_eq_rdropWhile (pyStripList l), dropWhile_pyStripList,
    pyStripList_eq_rdropWhile l, List.rdropWhile_idempotent]

theorem pyStrip_pyStrip (s : String) : pyStrip (pyStrip s) = pyStrip s := by
  simp [pyStrip, pyStripList_idem]

theorem pyStrip_empty : pyStrip "" = "" := rfl

theorem pyStripList_map_pyUpperChar (l : List Char) :
    pyStripList (l.map pyUpperChar) = (pyStripList l).map pyUpperChar := by
  have hfun : (isPySpace ∘ pyUpperChar) = isPySpace := by
    funext c
    exact isPySpace_pyUpperChar c
  unfold pyStripList
  rw [List.dropWhile_map, hfun, ← List.map_reverse, List.dropWhile_map, hfun,
    ← List.map_reverse]

theorem pyStrip_pyUpper (s : String) : pyStrip (pyUpper s) = pyUpper (pyStrip s) := by
  simp [pyStrip, pyUpper, pyStripList_map_pyUpperChar]

theorem pyUpper_eq_empty_iff (s : String) : pyUpper s = "" ↔ s = "" := by
  constructor
  · intro h
    have hdata : s.data.map pyUpperChar = [] := by
      have := congrArg String.data h
      simpa [pyUpper] using this
    have : s.data = [] := by simpa using hdata
    cases s
    simp_all
  · intro h
    subst h
    rfl

/-! ### Lemmas about the best-score loop -/

theorem maxScoreFrom_nil (score : String → String → ℚ) (h : String) (b : ℚ) :
    maxScoreFrom score h b [] = b := rfl

theorem maxScoreFrom_cons (score : String → String → ℚ) (h : String) (b : ℚ)
    (r : MasterRow) (rows : List MasterRow) :
    maxScoreFrom score h b (r :: rows) =
      maxScoreFrom score h (max b (score h r.hotelNorm)) rows := rfl

theorem le_maxScoreFrom (score : String → String → ℚ) (h : String) :
    ∀ (rows : List MasterRow) (b : ℚ), b ≤ maxScoreFrom score h b rows := by
  intro rows
  induction rows with
  | nil => intro b; exact le_refl b
  | cons r rest ih =>
    intro b
    rw [maxScoreFrom_cons]
    exact le_trans (le_max_left _ _) (ih _)

theorem maxScoreFrom_attained (score : String → String → ℚ) (h : String) :
    ∀ (rows : List MasterRow) (b : ℚ),
      maxScoreFrom score h b rows = b ∨
        ∃ r ∈ rows, score h r.hotelNorm = maxScoreFrom score h b rows := by
  intro rows
  induction rows with
  | nil => intro b; left; rfl
  | cons r rest ih =>
    intro b
    rw [maxScoreFrom_cons]
    rcases ih (max b (score h r.hotelNorm)) with hmax | ⟨r2, hmem, hr2⟩
    · rw [hmax]
      rcases le_total (score h r.hotelNorm) b with hle | hle
      · left
        exact max_eq_left hle
      · right
        exact ⟨r, List.mem_cons_self r rest, (max_eq_right hle).symm⟩
    · right
      exact ⟨r2, List.mem_cons_of_mem r hmem, hr2⟩

theorem best_fold_spec (score : String → String → ℚ) (h : String) :
    ∀ (rows : List MasterRow) (b : ℚ) (o : Option MasterRow),
      (maxScoreFrom score h b rows = b → best_fold score h rows b o = (b, o)) ∧
      (b < maxScoreFrom score h b rows →
        best_fold score h rows b o =
          (maxScoreFrom score h b rows,
           List.find? (fun r => score h r.hotelNorm = maxScoreFrom score h b rows) rows)) := by
  intro rows
  induction rows with
  | nil =>
    intro b o
    refine ⟨fun _ => rfl, fun hlt => absurd hlt (by rw [maxScoreFrom_nil]; exact lt_irrefl b)⟩
  | cons r rest ih =>
    intro b o
    rw [maxScoreFrom_cons]
    by_cases hbs : b < score h r.hotelNorm
    · have hmaxeq : max b (score h r.hotelNorm) = score h r.hotelNorm :=
        max_eq_right (le_of_lt hbs)
      rw [hmaxeq]
      have hsm := le_maxScoreFrom score h rest (score h r.hotelNorm)
      constructor
      · intro habs
        exact absurd (lt_of_lt_of_le hbs hsm) (by rw [habs]; exact lt_irrefl b)
      · intro _
        show best_fold score h (r :: rest) b o = _
        rw [best_fold, if_pos hbs]
        rcases lt_or_eq_of_le hsm with hlt | heq
        · rw [(ih (score h r.hotelNorm) (some r)).2 hlt,
            List.find?_cons_of_neg _ (by simp [ne_of_lt hlt])]
        · rw [(ih (score h r.hotelNorm) (some r)).1 heq.symm, ← heq,
            List.find?_cons_of_pos _ (by simp)]
    · have hsb : score h r.hotelNorm ≤ b := le_of_not_lt hbs
      have hmaxeq : max b (score h r.hotelNorm) = b := max_eq_left hsb
      rw [hmaxeq]
      constructor
      · intro hmb
        show best_fold score h (r :: rest) b o = _
        rw [best_fold, if_neg hbs]
        exact (ih b o).1 hmb
      · intro hlt
        show best_fold score h (r :: rest) b o = _
        rw [best_fold, if_neg hbs, (ih b o).2 hlt,
          List.find?_cons_of_neg _ (by simp [ne_of_lt (lt_of_le_of_lt hsb hlt)])]

theorem best_fold_fst_lt (score : String → String → ℚ) (h : String) (T : ℚ) :
    ∀ (rows : List MasterRow) (b : ℚ) (o : Option MasterRow), b < T →
      (∀ r ∈ rows, score h r.hotelNorm < T) →
      (best_fold score h rows b o).1 < T := by
  intro rows
  induction rows with
  | nil => intro b o hb _; exact hb
  | cons r rest ih =>
    intro b o hb hall
    rw [best_fold]
    by_cases hbs : b < score h r.hotelNorm
    · rw [if_pos hbs]
      exact ih _ _ (hall r (List.mem_cons_self r rest))
        (fun r2 h2 => hall r2 (List.mem_cons_of_mem r h2))
    · rw [if_neg hbs]
      exact ih _ _ hb (fun r2 h2 => hall r2 (List.mem_cons_of_mem r h2))

/-- Case split on the outcome of Match Decision for one record: it is
either the no-match shape or a matched shape with confidence at or above
the threshold. -/
theorem decide_one_cases (score : String → String → ℚ) (master : List MasterRow)
    (item : ScrapedItem) :
    decide_one score master item = mkNoMatch item ∨
      ∃ b row, FUZZY_THRESHOLD ≤ b ∧
        decide_one score master item = mkMatched item row b := by
  unfold decide_one
  rcases hbf : best_fold score item.hotelNorm (candidatesFor master item) 0 none
    with ⟨b, o⟩
  rcases o with _ | row
  · left; rfl
  · by_cases hth : FUZZY_THRESHOLD ≤ b
    · right
      exact ⟨b, row, hth, by simp [hth]⟩
    · left
      simp [hth]

theorem dropWhile_eq_self_of_all_neg {p : Char → Bool} :
    ∀ {l : List Char}, (∀ x ∈ l, p x = false) → l.dropWhile p = l := by
  intro l h
  cases l with
  | nil => rfl
  | cons c t =>
    exact List.dropWhile_cons_of_neg (by simp [h c (List.mem_cons_self c t)])

theorem pyStrip_of_no_space {s : String}
    (h : ∀ x ∈ s.data, isPySpace x = false) : pyStrip s = s := by
  have h1 : s.data.dropWhile isPySpace = s.data := dropWhile_eq_self_of_all_neg h
  have h2 : s.data.reverse.dropWhile isPySpace = s.data.reverse :=
    dropWhile_eq_self_of_all_neg (fun x hx => h x (List.mem_reverse.mp hx))
  cases s with
  | mk data =>
    simp only [pyStrip, pyStripList] at *
    rw [h1, h2, List.reverse_reverse]

theorem twoLetterCode_pyStrip {s st : String} (h : twoLetterCode s = some st) :
    pyStrip st = st := by
  unfold twoLetterCode at h
  rcases hd : s.data with _ | ⟨c0, rest⟩
  · rw [hd] at h
    simp [twoLetterCodeAux] at h
  · rcases rest with _ | ⟨c1, rest2⟩
    · rw [hd] at h
      simp [twoLetterCodeAux] at h
    · rw [hd] at h
      simp [twoLetterCodeAux] at h
      rcases h with ⟨⟨⟨ha0, ha1⟩, _⟩, hst⟩
      subst hst
      refine pyStrip_of_no_space ?_
      intro x hx
      have hx2 : x = c0 ∨ x = c1 := by simpa using hx
      rcases hx2 with rfl | rfl
      · exact isAsciiAlpha_not_pySpace ha0
      · exact isAsciiAlpha_not_pySpace ha1

theorem foldl_append_acc {α β : Type} (f : α → List β) :
    ∀ (l : List α) (acc : List β),
      l.foldl (fun a x => a ++ f x) acc = acc ++ l.foldl (fun a x => a ++ f x) [] := by
  intro l
  induction l with
  | nil => intro acc; simp
  | cons x rest ih =>
    intro acc
    rw [List.foldl_cons, List.foldl_cons, ih (acc ++ f x), List.nil_append, ih (f x),
      List.append_assoc]

/-! ### Claim theorems -/

/-- Claim C3: `canonicalizeCountry` maps every input whose upper-cased,
trimmed form is one of `USA, UNITED STATES, US, U.S., U.S.A.` to `US`;
any other non-empty input is returned upper-cased (on its trimmed form)
and otherwise unchanged; empty or null input returns null.  Stated as a
refinement of the spec wording by the code function `country_to_code`,
together with concrete evaluations of all five variants, a plain country,
and the empty and null inputs. -/
theorem country_to_code_matches_spec :
    (∀ os : Option String, country_to_code os = canonicalize_country_spec os)
    ∧ country_to_code (some "usa") = some "US"
    ∧ country_to_code (some "United States") = some "US"
    ∧ country_to_code (some "us") = some "US"
    ∧ country_to_code (some "u.s.") = some "US"
    ∧ country_to_code (some " U.S.A. ") = some "US"
    ∧ country_to_code (some "France") = some "FRANCE"
    ∧ country_to_code (some "") = none
    ∧ country_to_code none = none := by
  refine ⟨?_, by decide, by decide, by decide, by decide, by decide, by decide, by decide, rfl⟩
  intro os
  rcases os with _ | s
  · rfl
  · simp only [country_to_code, canonicalize_country_spec, pyStrip_pyUpper]
    by_cases hs : s = ""
    · subst hs
      decide
    · rw [if_neg hs]
      by_cases hps : pyStrip s = ""
      · rw [hps, if_pos rfl, if_pos (show pyUpper "" = "" by decide)]
      · rw [if_neg hps, if_neg (fun hx => hps ((pyUpper_eq_empty_iff (pyStrip s)).mp hx))]

/-- Claim C4: `canonicalizeState` upper-cases a 2-letter alphabetic token
(after stripping); any other input is looked up lower-cased in the fixed
table of 50 US state names; every unmapped input, including non-alphabetic
2-character tokens, gives null; and the function is total (it is a Lean
function), with all 50 names mapped correctly both lower-cased and
upper-cased. -/
theorem state_to_code_matches_claim :
    (∀ s : String, (pyStrip s).length = 2 → (pyStrip s).data.all isAsciiAlpha = true →
      state_to_code (some s) = some (pyUpper (pyStrip s)))
    ∧ (∀ s : String,
        ¬((pyStrip s).length = 2 ∧ (pyStrip s).data.all isAsciiAlpha = true) →
        state_to_code (some s) = List.lookup (pyLower (pyStrip s)) STATE_CODE_MAP)
    ∧ (∀ s : String,
        ¬((pyStrip s).length = 2 ∧ (pyStrip s).data.all isAsciiAlpha = true) →
        List.lookup (pyLower (pyStrip s)) STATE_CODE_MAP = none →
        state_to_code (some s) = none)
    ∧ STATE_CODE_MAP.all
        (fun p => state_to_code (some p.1) == some p.2
          && state_to_code (some (pyUpper p.1)) == some p.2) = true
    ∧ state_to_code none = none
    ∧ state_to_code (some "90") = none := by
  have h2 : ∀ s : String,
      ¬((pyStrip s).length = 2 ∧ (pyStrip s).data.all isAsciiAlpha = true) →
      state_to_code (some s) = List.lookup (pyLower (pyStrip s)) STATE_CODE_MAP := by
    intro s hneg
    by_cases hs : s = ""
    · subst hs
      decide
    · simp only [state_to_code]
      rw [if_neg hs, if_neg hneg]
  refine ⟨?_, h2, ?_, by decide, rfl, by decide⟩
  · intro s hlen halpha
    have hs : s ≠ "" := by
      intro hx
      subst hx
      exact absurd hlen (by decide)
    simp only [state_to_code]
    rw [if_neg hs, if_pos ⟨hlen, halpha⟩]
  · intro s hneg hlook
    rw [h2 s hneg, hlook]

/-- Claim C4 witness: a padded lower-case 2-letter token is upper-cased,
and a full state name is looked up, both through the claim theorem. -/
theorem state_to_code_matches_claim_witness :
    ((pyStrip " tx ").length = 2 ∧ (pyStrip " tx ").data.all isAsciiAlpha = true)
    ∧ state_to_code (some " tx ") = some (pyUpper (pyStrip " tx "))
    ∧ state_to_code (some "California") = List.lookup (pyLower (pyStrip "California")) STATE_CODE_MAP :=
  ⟨⟨by decide, by decide⟩,
    state_to_code_matches_claim.1 " tx " (by decide) (by decide),
    state_to_code_matches_claim.2.1 "California" (by decide)⟩

/-- Claim C10: the normalizer maps any input whose string form
lower-cases to the literal `nan` to the empty key, exactly as it does for
empty or null input; consequently a discovered record whose city consists
solely of that token has an empty city key, is unresolvable, and
contributes no outcome. -/
theorem normalize_text_nan_is_empty :
    (∀ s : String, pyLower s = "nan" → normalize_text (some s) = "")
    ∧ normalize_text none = ""
    ∧ normalize_text (some "") = ""
    ∧ (∀ item : ScrapedItem, pyLower item.city = "nan" →
        item.cityNorm = normalize_text (some item.city) → resolvable item = false)
    ∧ (∀ (score : String → String → ℚ) (master : List MasterRow)
        (items : List (Option ScrapedItem)) (item : ScrapedItem),
        pyLower item.city = "nan" →
        item.cityNorm = normalize_text (some item.city) →
        match_hotels score (some item :: items) master = match_hotels score items master) := by
  have h1 : ∀ s : String, pyLower s = "nan" → normalize_text (some s) = "" := by
    intro s hs
    simp only [normalize_text]
    rw [if_pos hs]
  have h4 : ∀ item : ScrapedItem, pyLower item.city = "nan" →
      item.cityNorm = normalize_text (some item.city) → resolvable item = false := by
    intro item hc hn
    have hempty : item.cityNorm = "" := by rw [hn]; exact h1 _ hc
    simp [resolvable, hempty]
  refine ⟨h1, rfl, by decide, h4, ?_⟩
  intro score master items item hc hn
  have hres := h4 item hc hn
  simp [match_hotels, List.filterMap_cons, hres]

/-- Claim C10 witness: a scraped record built from an address whose city
segment is the literal `NaN` gets an empty city key and is dropped by
`match_hotels`, through the claim theorem. -/
theorem normalize_text_nan_is_empty_witness :
    pyLower (build_scraped_item "Grand Hotel" "NaN, WA 98101, US" "https://h.example/x").city = "nan"
    ∧ match_hotels sampleScore
        (some (build_scraped_item "Grand Hotel" "NaN, WA 98101, US" "https://h.example/x") :: [])
        [sampleMaster] =
      match_hotels sampleScore [] [sampleMaster] :=
  ⟨by decide,
    normalize_text_nan_is_empty.2.2.2.2 sampleScore [sampleMaster] []
      (build_scraped_item "Grand Hotel" "NaN, WA 98101, US" "https://h.example/x")
      (by decide) (by decide)⟩

/-- Claim C6: every discovered record whose normalized city key is empty
or whose canonicalized country code is null or empty is dropped before
Candidate Filter: wherever it sits in the batch, it contributes no
MatchOutcome at all to the result set. -/
theorem unresolvable_records_dropped :
    ∀ (score : String → String → ℚ) (master : List MasterRow)
      (pre post : List (Option ScrapedItem)) (item : ScrapedItem),
      item.cityNorm = "" ∨ item.countryCode = none ∨ item.countryCode = some "" →
      match_hotels score (pre ++ some item :: post) master =
        match_hotels score (pre ++ post) master := by
  intro score master pre post item hyp
  have hres : resolvable item = false := by
    rcases hyp with h | h | h <;> simp [resolvable, pyTruthyOpt, h]
  simp [match_hotels, List.filterMap_append, List.filterMap_cons, hres]

/-- Claim C6 witness: a record with an empty city key placed in front of a
resolvable record contributes nothing, through the claim theorem. -/
theorem unresolvable_records_dropped_witness :
    sampleItemNoCity.cityNorm = ""
    ∧ match_hotels sampleScore ([] ++ some sampleItemNoCity :: [some sampleItem]) [sampleMaster] =
        match_hotels sampleScore ([] ++ [some sampleItem]) [sampleMaster] :=
  ⟨by decide,
    unresolvable_records_dropped sampleScore [sampleMaster] [] [some sampleItem]
      sampleItemNoCity (Or.inl (by decide))⟩

/-- Claim C7: Match Decision never fails.  The outcome list is exactly one
outcome per non-null resolvable record, in order; when every candidate
scores below the threshold, in particular when the candidate set is empty,
the outcome is the no-match shape; and the no-match shape has a null
property id, null coordinates, confidence 0, and every geography field
copied from the discovered record. -/
theorem match_decision_never_fails :
    (∀ (score : String → String → ℚ) (items : List (Option ScrapedItem))
      (master : List MasterRow),
      match_hotels score items master =
        ((items.filterMap id).filter (fun i => resolvable i)).map (decide_one score master))
    ∧ (∀ (score : String → String → ℚ) (master : List MasterRow) (item : ScrapedItem),
        (∀ r ∈ candidatesFor master item,
          score item.hotelNorm r.hotelNorm < FUZZY_THRESHOLD) →
        decide_one score master item = mkNoMatch item)
    ∧ (∀ item : ScrapedItem,
        (mkNoMatch item).hotelCode = none
        ∧ (mkNoMatch item).globalPropertyName = none
        ∧ (mkNoMatch item).matchConfidence = 0
        ∧ (mkNoMatch item).latitude = none
        ∧ (mkNoMatch item).longitude = none
        ∧ (mkNoMatch item).city = item.city
        ∧ (mkNoMatch item).state = item.state
        ∧ (mkNoMatch item).stateCode = item.stateCode
        ∧ (mkNoMatch item).country = item.country
        ∧ (mkNoMatch item).countryCode = item.countryCode
        ∧ (mkNoMatch item).url = item.url
        ∧ (mkNoMatch item).address = item.address) := by
  refine ⟨?_, ?_, ?_⟩
  · intro score items master
    induction items with
    | nil => rfl
    | cons oit rest ih =>
      rcases oit with _ | it
      · simpa [match_hotels, List.filterMap_cons] using ih
      · by_cases hres : resolvable it
        · simpa [match_hotels, List.filterMap_cons, List.filter_cons, hres] using ih
        · simpa [match_hotels, List.filterMap_cons, List.filter_cons, hres] using ih
  · intro score master item hall
    have hlt := best_fold_fst_lt score item.hotelNorm FUZZY_THRESHOLD
      (candidatesFor master item) 0 none (by decide) hall
    unfold decide_one
    rcases hbf : best_fold score item.hotelNorm (candidatesFor master item) 0 none
      with ⟨b, o⟩
    rw [hbf] at hlt
    rcases o with _ | row
    · rfl
    · simp only at hlt
      simp [not_le.mpr hlt]
  · intro item
    exact ⟨rfl, rfl, rfl, rfl, rfl, rfl, rfl, rfl, rfl, rfl, rfl, rfl⟩

/-- Claim C7 witness: with an empty master registry the candidate set is
empty and the decision for the Scenario A record is the no-match shape,
through the claim theorem. -/
theorem match_decision_never_fails_witness :
    decide_one sampleScore [] sampleItem = mkNoMatch sampleItem :=
  match_decision_never_fails.2.1 sampleScore [] sampleItem
    (by intro r hr; simp [candidatesFor] at hr)

/-- Claim C1: for every outcome emitted by Match Decision, the confidence
is at or above `FUZZY_THRESHOLD` exactly when the property id is non-null;
a no-match outcome has confidence 0 and null coordinates; and a matched
outcome carries the winning score of the best-score loop as its
confidence, with the winning row giving the property id. -/
theorem match_outcome_confidence_invariant :
    (∀ (score : String → String → ℚ) (items : List (Option ScrapedItem))
      (master : List MasterRow) (o : MatchOutcome),
      o ∈ match_hotels score items master →
        (FUZZY_THRESHOLD ≤ o.matchConfidence ↔ o.hotelCode ≠ none)
        ∧ (o.hotelCode = none →
            o.matchConfidence = 0 ∧ o.latitude = none ∧ o.longitude = none))
    ∧ (∀ (score : String → String → ℚ) (master : List MasterRow)
        (item : ScrapedItem) (b : ℚ) (row : MasterRow),
        best_fold score item.hotelNorm (candidatesFor master item) 0 none = (b, some row) →
        FUZZY_THRESHOLD ≤ b →
        decide_one score master item = mkMatched item row b
          ∧ (decide_one score master item).matchConfidence = b
          ∧ (decide_one score master item).hotelCode = some row.globalPropertyId) := by
  constructor
  · intro score items master o ho
    unfold match_hotels at ho
    rcases List.mem_filterMap.mp ho with ⟨oit, hmem, hfa⟩
    rcases oit with _ | it
    · simp at hfa
    · by_cases hres : resolvable it
      · simp only [hres, if_true, Option.some.injEq] at hfa
        have ho2 : o = decide_one score master it := hfa.symm
        subst ho2
        rcases decide_one_cases score master it with hno | ⟨b, row, hth, hmt⟩
        · rw [hno]
          refine ⟨?_, fun _ => ⟨rfl, rfl, rfl⟩⟩
          constructor
          · intro habs
            have h0 : ¬ FUZZY_THRESHOLD ≤ (0 : ℚ) := by decide
            exact absurd habs h0
          · intro habs
            exact absurd rfl habs
        · rw [hmt]
          refine ⟨?_, fun habs => by simp [mkMatched] at habs⟩
          constructor
          · intro _
            simp [mkMatched]
          · intro _
            exact hth
      · simp [hres] at hfa
  · intro score master item b row hbf hth
    unfold decide_one
    rw [hbf]
    simp [hth, mkMatched]

/-- Claim C1 witness: the Scenario A record matched against the Scenario A
master row gives an outcome satisfying the invariant, through the claim
theorem. -/
theorem match_outcome_confidence_invariant_witness :
    decide_one sampleScore [sampleMaster] sampleItem ∈
        match_hotels sampleScore [some sampleItem] [sampleMaster]
    ∧ (FUZZY_THRESHOLD ≤ (decide_one sampleScore [sampleMaster] sampleItem).matchConfidence ↔
        (decide_one sampleScore [sampleMaster] sampleItem).hotelCode ≠ none) :=
  ⟨by decide,
    (match_outcome_confidence_invariant.1 sampleScore [some sampleItem] [sampleMaster]
      (decide_one sampleScore [sampleMaster] sampleItem) (by decide)).1⟩

/-- Claim C5 counterexample: with a non-empty candidate list in which
every candidate scores 0, the best-score loop selects no candidate at all
(`best_row` stays `None`), while the claim as stated demands the first
candidate attaining the highest score, which `List.find?` returns. -/
theorem best_fold_zero_scores_counterexample :
    (best_fold zeroScore "lonely hotel" [sampleMaster] 0 none).2 = none
    ∧ List.find? (fun r => zeroScore "lonely hotel" r.hotelNorm =
        maxScoreFrom zeroScore "lonely hotel" 0 [sampleMaster]) [sampleMaster] =
        some sampleMaster
    ∧ (best_fold zeroScore "lonely hotel" [sampleMaster] 0 none).2 ≠
        List.find? (fun r => zeroScore "lonely hotel" r.hotelNorm =
          maxScoreFrom zeroScore "lonely hotel" 0 [sampleMaster]) [sampleMaster] := by
  refine ⟨by decide, by decide, by decide⟩

/-- Claim C5 (amended): whenever the highest score of the candidate list
is positive, Match Decision selects exactly the first candidate attaining
the highest score, in Candidate Filter output order, together with that
score; the positivity hypothesis is needed because the loop starts from
`best_score = 0` with a strict comparison, so an all-zero list selects no
candidate. -/
theorem best_fold_selects_first_max :
    ∀ (score : String → String → ℚ) (h : String) (rows : List MasterRow),
      0 < maxScoreFrom score h 0 rows →
      best_fold score h rows 0 none =
        (maxScoreFrom score h 0 rows,
         List.find? (fun r => score h r.hotelNorm = maxScoreFrom score h 0 rows) rows)
      ∧ (List.find? (fun r => score h r.hotelNorm = maxScoreFrom score h 0 rows)
          rows).isSome = true := by
  intro score h rows hpos
  refine ⟨(best_fold_spec score h rows 0 none).2 hpos, ?_⟩
  rcases maxScoreFrom_attained score h rows 0 with heq | ⟨r, hmem, hr⟩
  · rw [heq] at hpos
    exact absurd hpos (lt_irrefl 0)
  · rw [List.find?_isSome]
    exact ⟨r, hmem, by simp [hr]⟩

/-- Claim C5 witness: a single candidate scoring 90 is selected with
score 90, through the amended claim theorem. -/
theorem best_fold_selects_first_max_witness :
    0 < maxScoreFrom sampleScore "hilton downtown" 0 [sampleMaster]
    ∧ best_fold sampleScore "hilton downtown" [sampleMaster] 0 none =
        (maxScoreFrom sampleScore "hilton downtown" 0 [sampleMaster],
         List.find? (fun r => sampleScore "hilton downtown" r.hotelNorm =
           maxScoreFrom sampleScore "hilton downtown" 0 [sampleMaster]) [sampleMaster]) :=
  ⟨by decide,
    (best_fold_selects_first_max sampleScore "hilton downtown" [sampleMaster] (by decide)).1⟩

/-- Claim C2 counterexample: on an address with exactly one non-empty
segment the parser keeps that segment as the country, so the three
outputs are not all empty as the claim states. -/
theorem parse_address_single_segment_counterexample :
    parse_address_components "France" = ("", "", "France")
    ∧ parse_address_components "France" ≠ ("", "", "") := by
  refine ⟨by decide, by decide⟩

/-- Claim C2 (amended): `parse_address_components` splits on commas,
trims segments, drops empty ones, and then behaves exactly as the spec
wording on the segment list — country is the last segment, the
second-to-last is probed for a leading two-letter state code when at
least three segments remain, the two-segment case takes the first as the
city — amended only in the case of a single non-empty segment, where the
code returns that segment as the country instead of three empty
strings. -/
theorem parse_address_components_refines_spec :
    ∀ address : String,
      parse_address_components address =
        parse_address_components_spec (addressParts address) := by
  intro address
  by_cases haddr : address = ""
  · subst haddr
    decide
  · have hparts : ∀ p ∈ addressParts address, pyStrip p = p ∧ p ≠ "" := by
      intro p hp
      unfold addressParts at hp
      have hne : p ≠ "" := by
        have h2 := List.of_mem_filter hp
        simpa using h2
      have hmm : p ∈ (splitOnComma address.data).map (fun l => String.mk (pyStripList l)) :=
        List.mem_of_mem_filter hp
      rcases List.mem_map.mp hmm with ⟨l0, _, hl0⟩
      refine ⟨?_, hne⟩
      rw [← hl0]
      show pyStrip (String.mk (pyStripList l0)) = String.mk (pyStripList l0)
      simp [pyStrip, pyStripList_idem]
    unfold parse_address_components parse_address_components_spec
    rw [if_neg haddr]
    rcases hrev : (addressParts address).reverse with _ | ⟨c, rest1⟩
    · have hlen : (addressParts address).length = 0 := by
        rw [← List.length_reverse, hrev]
        rfl
      simp [hrev, hlen, nthFromEnd, pyStrip_empty]
    · rcases rest1 with _ | ⟨b, rest1b⟩
      · have hlen : (addressParts address).length = 1 := by
          rw [← List.length_reverse, hrev]
          rfl
        have hcmem : c ∈ addressParts address := by
          rw [← List.mem_reverse, hrev]
          simp
        simp [hrev, hlen, nthFromEnd, pyStrip_empty, (hparts c hcmem).1]
      · rcases rest1b with _ | ⟨a, rest3⟩
        · have hlen : (addressParts address).length = 2 := by
            rw [← List.length_reverse, hrev]
            rfl
          have hcmem : c ∈ addressParts address := by
            rw [← List.mem_reverse, hrev]
            simp
          have hbmem : b ∈ addressParts address := by
            rw [← List.mem_reverse, hrev]
            simp
          simp [hrev, hlen, nthFromEnd, pyStrip_empty, (hparts c hcmem).1, (hparts b hbmem).1]
        · have hlen : (addressParts address).length = rest3.length + 3 := by
            rw [← List.length_reverse, hrev]
            simp
          have hcmem : c ∈ addressParts address := by
            rw [← List.mem_reverse, hrev]
            simp
          have hbmem : b ∈ addressParts address := by
            rw [← List.mem_reverse, hrev]
            simp
          have hamem : a ∈ addressParts address := by
            rw [← List.mem_reverse, hrev]
            simp
          have h3 : 3 ≤ (addressParts address).length := by rw [hlen]; omega
          have h2 : 2 ≤ (addressParts address).length := by rw [hlen]; omega
          have h1 : 1 ≤ (addressParts address).length := by rw [hlen]; omega
          rcases htlc : twoLetterCode b with _ | st
          · simp [hrev, nthFromEnd, htlc, h1, h2, h3, pyStrip_empty,
              (hparts c hcmem).1, (hparts b hbmem).1, (hparts b hbmem).2]
          · simp [hrev, nthFromEnd, htlc, h1, h2, h3, pyStrip_empty,
              (hparts c hcmem).1, (hparts a hamem).1, (hparts a hamem).2,
              twoLetterCode_pyStrip htlc]

/-- Claim C8: a crawler exception while collecting one location is caught
inside `scrape_hotels_from_location`, which then contributes the empty
batch for that location; the coordinator keeps the outcomes accumulated
for earlier locations and still processes the later ones. -/
theorem per_location_failure_isolated :
    ∀ (crawl : Location → Except String (List (Option ScrapedItem)))
      (score : String → String → ℚ) (master : List MasterRow)
      (pre post : List Location) (loc : Location) (msg : String),
      crawl loc = Except.error msg →
      scrape_hotels_from_location crawl loc = []
      ∧ main_scrape_and_map crawl score master (pre ++ loc :: post) =
          main_scrape_and_map crawl score master pre ++
            main_scrape_and_map crawl score master post := by
  intro crawl score master pre post loc msg hc
  have hscr : scrape_hotels_from_location crawl loc = [] := by
    unfold scrape_hotels_from_location
    rw [hc]
  refine ⟨hscr, ?_⟩
  unfold main_scrape_and_map
  rw [List.foldl_append, List.foldl_cons, hscr]
  have hmh : match_hotels score (([] : List ScrapedItem).map some) master = [] := rfl
  rw [hmh, List.append_nil]
  exact foldl_append_acc
    (fun loc2 => match_hotels score ((scrape_hotels_from_location crawl loc2).map some) master)
    post _

/-- Claim C8 witness: a three-location run whose middle location raises
keeps the outcomes of the first location and still processes the third,
through the claim theorem. -/
theorem per_location_failure_isolated_witness :
    scrape_hotels_from_location sampleCrawl sampleLocBad = []
    ∧ main_scrape_and_map sampleCrawl sampleScore [sampleMaster]
        ([sampleLocGood1] ++ sampleLocBad :: [sampleLocGood2]) =
      main_scrape_and_map sampleCrawl sampleScore [sampleMaster] [sampleLocGood1] ++
        main_scrape_and_map sampleCrawl sampleScore [sampleMaster] [sampleLocGood2] :=
  per_location_failure_isolated sampleCrawl sampleScore [sampleMaster]
    [sampleLocGood1] [sampleLocGood2] sampleLocBad "timeout" rfl

/-- Claim C9 (code bug): the insert of `save_to_db` relies on
`ON CONFLICT (hotel_code, url) DO NOTHING`, and a SQL unique constraint
never treats NULL values as equal, so re-inserting the same no-match
outcome (whose `hotel_code` is NULL) stores it twice instead of once; a
matched outcome with a non-null key is stored once as intended. -/
theorem save_to_db_duplicates_null_key :
    save_to_db (save_to_db [] [sampleNoMatch]) [sampleNoMatch] =
      [sampleNoMatch, sampleNoMatch]
    ∧ (save_to_db (save_to_db [] [sampleNoMatch]) [sampleNoMatch]).length = 2
    ∧ save_to_db (save_to_db [] [sampleMatched]) [sampleMatched] = [sampleMatched] := by
  refine ⟨by decide, by decide, by decide⟩

end HotelMap
